import Mathlib

/-!
Verification of the Identity & Access Control subsystem of the Homie
repository (`config.py`, `app.py`, `authentication.py`, `models.py`).
The Python code is shallowly embedded: SQLite tables become lists of
records, connections become explicit state passing, and exceptions become
`Except` results. Python string operations (`str.lower`, `str.strip`,
`str.split`) are modelled over `List Char` with structural recursion, in
their ASCII behaviour, so that every definition evaluates by kernel
reduction.
-/

/-! ## Python string primitives -/

/-- ASCII model of Python `str.lower` on one character. -/
def lowerChar (c : Char) : Char :=
  if 65 ≤ c.toNat ∧ c.toNat ≤ 90 then Char.ofNat (c.toNat + 32) else c

/-- ASCII model of Python `str.lower`. -/
def pyLower (s : String) : String := ⟨s.data.map lowerChar⟩

/-- The whitespace characters Python `str.strip` removes. -/
def isPySpace (c : Char) : Bool :=
  c = ' ' || c = '\t' || c = '\n' || c = '\r' || c = '\x0b' || c = '\x0c'

/-- Model of Python `str.strip` (no argument): drop leading and trailing
whitespace. -/
def pyStrip (s : String) : String :=
  ⟨((s.data.dropWhile isPySpace).reverse.dropWhile isPySpace).reverse⟩

/-- Split a character list at every occurrence of `sep`, keeping empty
groups, as Python `str.split(sep)` does for a one-character separator. -/
def splitCharList (sep : Char) : List Char → List (List Char)
  | [] => [[]]
  | c :: cs =>
    match splitCharList sep cs with
    | [] => if c = sep then [[], []] else [[c]]
    | g :: gs => if c = sep then [] :: g :: gs else (c :: g) :: gs

/-- Model of Python `s.split(sep)` for a one-character separator. -/
def pySplit (sep : Char) (s : String) : List String :=
  (splitCharList sep s.data).map (fun g => ⟨g⟩)

/-- The characters of `l` before the first occurrence of `sep`. -/
def takeUntil (sep : Char) : List Char → List Char
  | [] => []
  | c :: cs => if c = sep then [] else c :: takeUntil sep cs

/-- Model of Python `email.split("@")[0]`. -/
def localPart (email : String) : String := ⟨takeUntil '@' email.data⟩

/-- `listStartsWith pat l`: `l` begins with `pat`. -/
def listStartsWith (pat l : List Char) : Bool :=
  match pat, l with
  | [], _ => true
  | _ :: _, [] => false
  | a :: as, b :: bs => a == b && listStartsWith as bs

/-- `containsSub pat l`: `pat` occurs as a contiguous run inside `l`. -/
def containsSub (pat l : List Char) : Bool :=
  match l with
  | [] => pat.isEmpty
  | _ :: bs => listStartsWith pat l || containsSub pat bs

/-- Model of Python `sub in s` on strings (substring test). -/
def strIn (sub s : String) : Bool := containsSub sub.data s.data

/-- Model of Python `dict.get(k, d)` on a metadata dictionary. -/
def metaGet (m : List (String × String)) (k d : String) : String :=
  match m.find? (fun p => p.1 == k) with
  | some p => p.2
  | none => d

/-! ## `config.py` — access control configuration -/

/-- The dictionary `load_access_control` builds: two email lists. -/
structure AccessControl where
  allowed_emails : List String
  admin_emails : List String
  deriving DecidableEq, Repr

/-- One comma-separated env value parsed as `load_access_control` does:
an empty value is falsy and contributes no emails; otherwise split on
commas and map `email.strip().lower()` over the parts. -/
def parseEmails (s : String) : List String :=
  if s == "" then []
  else (pySplit ',' s).map (fun e => pyLower (pyStrip e))

/-- `config.load_access_control`, with the two env values passed
explicitly (`ADMIN_EMAILS` first, `ALLOWED_EMAILS` second). -/
def load_access_control (adminEmailsStr allowedEmailsStr : String) : AccessControl :=
  { admin_emails := parseEmails adminEmailsStr,
    allowed_emails := parseEmails allowedEmailsStr }

/-! ## `app.py` — the login gate (lines 172–186) -/

/-- The denial condition of the login gate, exactly as `app.py` nests it:
the allowlist is non-empty, the lowered email is not among the lowered
allowed emails, and not among the lowered admin emails either. -/
def loginDenied (ac : AccessControl) (email : String) : Bool :=
  !ac.allowed_emails.isEmpty &&
    !((ac.allowed_emails.map pyLower).contains (pyLower email)) &&
    !((ac.admin_emails.map pyLower).contains (pyLower email))

/-- The login gate authorizes an email iff it is not denied. -/
def isAuthorized (ac : AccessControl) (email : String) : Bool :=
  !loginDenied ac email

/-! ## Basic facts about the string primitives -/

theorem toNat_ofNat_valid (n : Nat) (h : n < 55296) : (Char.ofNat n).toNat = n := by
  simp [Char.ofNat, Nat.isValidChar, h, Char.ofNatAux, Char.toNat, UInt32.toNat]

theorem lowerChar_idem (c : Char) : lowerChar (lowerChar c) = lowerChar c := by
  unfold lowerChar
  split
  · next h =>
    have h2 : (Char.ofNat (c.toNat + 32)).toNat = c.toNat + 32 :=
      toNat_ofNat_valid _ (by omega)
    rw [if_neg]
    rw [h2]
    omega
  · rfl

theorem pyLower_idem (s : String) : pyLower (pyLower s) = pyLower s := by
  unfold pyLower
  cases s with
  | mk data =>
    simp only [List.map_map]
    congr 1
    exact List.map_congr_left (fun c _ => lowerChar_idem c)

/-- Every email produced by `parseEmails` is already lowercased. -/
theorem mem_parseEmails_lower {s : String} {x : String} (hx : x ∈ parseEmails s) :
    pyLower x = x := by
  unfold parseEmails at hx
  split at hx
  · simp at hx
  · obtain ⟨e, _, rfl⟩ := List.mem_map.mp hx
    exact pyLower_idem _

theorem map_pyLower_parseEmails (s : String) :
    (parseEmails s).map pyLower = parseEmails s := by
  rw [List.map_congr_left (fun x hx => mem_parseEmails_lower hx)]
  exact List.map_id _

example : pyLower "A@X.Com" = "a@x.com" := by decide
example : parseEmails " A@x.com , b@Y.com" = ["a@x.com", "b@y.com"] := by decide
example : parseEmails "" = [] := by decide
example : localPart "alice@example.com" = "alice" := by decide
example : strIn "duplicate column name" "duplicate column name: completed" = true := by decide

/-! ## `models.py` — the `users` table -/

/-- One row of the `users` table. `supabase_id` is nullable: the migration
path adds the column without a value, so legacy rows can carry `none`. -/
structure UserRow where
  id : Nat
  username : String
  email : String
  full_name : String
  is_admin : Bool
  supabase_id : Option String
  last_login : Option String
  created_at : String
  last_activity : Option String
  deriving DecidableEq, Repr

/-- The `users` table: its rows in insertion order plus the autoincrement
counter that yields the next primary key. -/
structure UsersTable where
  rows : List UserRow
  nextId : Nat
  deriving DecidableEq, Repr

/-- `SELECT * FROM users WHERE supabase_id = ?` (first matching row; a SQL
`=` comparison never matches a NULL column). -/
def findBySupabaseId (t : UsersTable) (sid : String) : Option UserRow :=
  t.rows.find? (fun r => r.supabase_id == some sid)

/-- `SELECT * FROM users WHERE email = ?` (first matching row). -/
def findByEmail (t : UsersTable) (email : String) : Option UserRow :=
  t.rows.find? (fun r => r.email == email)

/-- `SELECT * FROM users WHERE id = ?` (first matching row). -/
def findById (t : UsersTable) (uid : Nat) : Option UserRow :=
  t.rows.find? (fun r => r.id == uid)

/-- The row transformer of `UPDATE users SET supabase_id = ? WHERE id = ?`. -/
def applyBackfill (uid : Nat) (sid : String) (r : UserRow) : UserRow :=
  if r.id == uid then { r with supabase_id := some sid } else r

/-- `UPDATE users SET supabase_id = ? WHERE id = ?`. -/
def setSupabaseId (t : UsersTable) (uid : Nat) (sid : String) : UsersTable :=
  { t with rows := t.rows.map (applyBackfill uid sid) }

/-- The row transformer of
`UPDATE users SET last_login = ?, full_name = ?, is_admin = ? WHERE id = ?`. -/
def applyLoginInfo (uid : Nat) (now full_name : String) (is_admin : Bool)
    (r : UserRow) : UserRow :=
  if r.id == uid then
    { r with last_login := some now, full_name := full_name, is_admin := is_admin }
  else r

/-- `UPDATE users SET last_login = ?, full_name = ?, is_admin = ? WHERE id = ?`. -/
def setLoginInfo (t : UsersTable) (uid : Nat) (now full_name : String)
    (is_admin : Bool) : UsersTable :=
  { t with rows := t.rows.map (applyLoginInfo uid now full_name is_admin) }

/-- An exception the create path can raise: the `sqlite3.IntegrityError`
SQLite raises when an INSERT violates a UNIQUE constraint, or the Python
`AttributeError` raised by reading a missing attribute. -/
inductive DBError where
  | integrityError (msg : String)
  | attributeError (msg : String)
  deriving DecidableEq, Repr

/-- An INSERT into `users` conflicts when some row already holds the same
email (`email UNIQUE`) or the same supabase id (`supabase_id UNIQUE`). -/
def insertConflict (rows : List UserRow) (email sid : String) : Bool :=
  rows.any (fun r => r.email == email || r.supabase_id == some sid)

/-- `INSERT INTO users (username, email, full_name, supabase_id, is_admin,
last_login, created_at) VALUES (…)`: the uniqueness violation, or the fresh
autoincrement id and the table as this (still uncommitted) transaction sees
it. -/
def insertUser (t : UsersTable) (username email full_name sid : String)
    (is_admin : Bool) (last_login created_at : String) :
    Except DBError (Nat × UsersTable) :=
  if insertConflict t.rows email sid then
    .error (.integrityError "UNIQUE constraint failed: users")
  else
    .ok (t.nextId,
      { rows := t.rows ++
          [{ id := t.nextId, username := username, email := email,
             full_name := full_name, is_admin := is_admin,
             supabase_id := some sid, last_login := some last_login,
             created_at := created_at, last_activity := none }],
        nextId := t.nextId + 1 })

/-- Which branch of `get_or_create_supabase_user` resolved the user:
the primary `supabase_id` lookup, the email fallback with backfill, or the
insert of a fresh row (a branch the program enters but — see `createUser` —
never completes). -/
inductive ReconcilePath
  | primary
  | emailBackfill
  | created
  deriving DecidableEq, Repr

/-- A normal return of `get_or_create_supabase_user`: the row the function
returns (`fetchone` may in principle yield no row, hence `Option`), the
table as committed, the branch taken, and whether `conn.close()` ran before
returning. -/
structure ReconcileOk where
  user : Option UserRow
  store : UsersTable
  path : ReconcilePath
  connClosed : Bool
  deriving DecidableEq, Repr

/-- The identity assertion Supabase returns on a successful sign-in. -/
structure SupabaseUser where
  id : String
  email : String
  user_metadata : List (String × String)
  deriving DecidableEq, Repr

/-- Step 1 of the reconciliation: the display name derived from metadata
`full_name`/`name`, else the local part of the email. -/
def fullNameOf (su : SupabaseUser) : String :=
  metaGet su.user_metadata "full_name"
    (metaGet su.user_metadata "name" (localPart su.email))

/-- Step 1 of the reconciliation: the username derived from metadata
`username`, else the local part of the email. -/
def usernameOf (su : SupabaseUser) : String :=
  metaGet su.user_metadata "username" (localPart su.email)

/-- Step 2 of the reconciliation:
`is_admin = email.lower() in access_control.get("admin_emails", [])`. -/
def isAdminOf (ac : AccessControl) (email : String) : Bool :=
  ac.admin_emails.contains (pyLower email)

/-- The `else` branch of `get_or_create_supabase_user` (models.py lines
206–230). `midCommits` are rows a concurrent request committed between this
call's lookups and its INSERT (the race window of spec §4.2/§5). The INSERT
executes first and can raise the uniqueness violation; when it succeeds,
line 224 reads `conn.lastrowid` — but `sqlite3.Connection` has no
`lastrowid` attribute (it belongs to cursors), so an `AttributeError`
raises before `conn.commit()`: the uncommitted INSERT is rolled back and no
record is ever created or returned on this branch. There is no
`try`/`except` around any of it, so either exception propagates, skipping
`conn.close()` — the `false` in the error payload records that the
connection was not closed. -/
def createUser (t : UsersTable) (username email full_name sid : String)
    (is_admin : Bool) (now : String) (midCommits : List UserRow) :
    Except (DBError × Bool) ReconcileOk :=
  let t2 : UsersTable := { t with rows := t.rows ++ midCommits }
  match insertUser t2 username email full_name sid is_admin now now with
  | .error e => .error (e, false)
  | .ok _ =>
    .error (.attributeError "Connection object has no attribute lastrowid", false)

/-- `UserModel.get_or_create_supabase_user` (models.py lines 160–233).
The update branch commits `last_login`/`full_name`/`is_admin` but returns
the row fetched *before* the UPDATE, exactly as the Python does (the row is
never re-read after the login-info UPDATE). -/
def get_or_create_supabase_user (t : UsersTable) (su : SupabaseUser)
    (ac : AccessControl) (now : String) (midCommits : List UserRow) :
    Except (DBError × Bool) ReconcileOk :=
  match findBySupabaseId t su.id with
  | some user =>
    .ok { user := some user,
          store := setLoginInfo t user.id now (fullNameOf su) (isAdminOf ac su.email),
          path := .primary, connClosed := true }
  | none =>
    match findByEmail t su.email with
    | some user0 =>
      let tb := setSupabaseId t user0.id su.id
      match findById tb user0.id with
      | some user1 =>
        .ok { user := some user1,
              store := setLoginInfo tb user1.id now (fullNameOf su) (isAdminOf ac su.email),
              path := .emailBackfill, connClosed := true }
      | none =>
        createUser tb (usernameOf su) su.email (fullNameOf su) su.id
          (isAdminOf ac su.email) now midCommits
    | none =>
      createUser t (usernameOf su) su.email (fullNameOf su) su.id
        (isAdminOf ac su.email) now midCommits

/-! ## `models.py` — schema and migrations -/

/-- One table of the SQLite schema: its name and column names. -/
structure TableSchema where
  name : String
  columns : List String
  deriving DecidableEq, Repr

/-- The database schema: its tables in creation order. -/
abbrev Schema := List TableSchema

/-- Whether a table named `n` exists. -/
def hasTable (s : Schema) (n : String) : Bool :=
  s.any (fun t => t.name == n)

/-- `CREATE TABLE IF NOT EXISTS n (…)`. -/
def createTableIfNotExists (s : Schema) (n : String) (cols : List String) : Schema :=
  if hasTable s n then s else s ++ [⟨n, cols⟩]

/-- Whether the (first) table named `n` has a column named `col`. -/
def tableHasColumn (s : Schema) (n col : String) : Bool :=
  match s.find? (fun t => t.name == n) with
  | some t => t.columns.contains col
  | none => false

/-- A `sqlite3.OperationalError` with its message. -/
inductive SqliteError where
  | operationalError (msg : String)
  deriving DecidableEq, Repr

/-- The table transformer of `ALTER TABLE n ADD COLUMN col`. -/
def addColumn (n col : String) (u : TableSchema) : TableSchema :=
  if u.name == n then { u with columns := u.columns ++ [col] } else u

/-- `ALTER TABLE n ADD COLUMN col …`: fails on a missing table or an
existing column, with SQLite's message in each case. -/
def alterTableAddColumn (s : Schema) (n col : String) : Except SqliteError Schema :=
  match s.find? (fun t => t.name == n) with
  | none => .error (.operationalError ("no such table: " ++ n))
  | some t =>
    if t.columns.contains col then
      .error (.operationalError ("duplicate column name: " ++ col))
    else
      .ok (s.map (addColumn n col))

/-- A logging call the migration runner makes. -/
inductive LogEntry where
  | info (msg : String)
  | debug (msg : String)
  | warning (msg : String)
  deriving DecidableEq, Repr

/-- The four migrations of `Database._run_migrations`: target table, added
column, and the log description. -/
abbrev mig1 : (String × String) × String :=
  (("shopping_items", "completed"), "shopping_items completed column")

abbrev mig2 : (String × String) × String :=
  (("shopping_items", "completed_by"), "shopping_items completed_by column")

abbrev mig3 : (String × String) × String :=
  (("shopping_items", "completed_at"), "shopping_items completed_at column")

abbrev mig4 : (String × String) × String :=
  (("users", "supabase_id"), "users supabase_id column")

/-- The migration list of `Database._run_migrations`. -/
def migrations : List ((String × String) × String) := [mig1, mig2, mig3, mig4]

/-- One iteration of the `for migration, description in migrations` loop:
execute the ALTER; on an `OperationalError` whose lowered message contains
"duplicate column name" or "already exists", treat it as already applied
(debug log); on any other `OperationalError`, log a warning and continue.
No branch re-raises. -/
def runOneMigration (s : Schema) (m : (String × String) × String) :
    Schema × List LogEntry :=
  match alterTableAddColumn s m.1.1 m.1.2 with
  | .ok s' => (s', [.info ("Applied migration: " ++ m.2)])
  | .error (.operationalError msg) =>
    if strIn "duplicate column name" (pyLower msg) || strIn "already exists" (pyLower msg) then
      (s, [.debug ("Migration already applied: " ++ m.2)])
    else
      (s, [.warning ("Migration failed: " ++ m.2)])

/-- `Database._run_migrations`. -/
def run_migrations (s : Schema) : Schema × List LogEntry :=
  migrations.foldl
    (fun acc m =>
      let r := runOneMigration acc.1 m
      (r.1, acc.2 ++ r.2))
    (s, [])

/-- The column lists of the six `CREATE TABLE IF NOT EXISTS` statements of
`Database.init_db`. -/
def usersColumns : List String :=
  ["id", "username", "email", "full_name", "is_admin", "supabase_id",
   "last_login", "created_at", "last_activity"]

def shoppingItemsColumns : List String :=
  ["id", "item_name", "completed", "added_by", "completed_by", "created_at",
   "completed_at"]

def choresColumns : List String :=
  ["id", "chore_name", "assigned_to", "completed", "added_by", "completed_by",
   "created_at", "completed_at"]

def expiryItemsColumns : List String :=
  ["id", "item_name", "expiry_date", "added_by", "created_at"]

def billsColumns : List String :=
  ["id", "bill_name", "amount", "due_day", "added_by", "created_at"]

def settingsColumns : List String := ["key", "value"]

/-- The six `CREATE TABLE IF NOT EXISTS` statements of `Database.init_db`,
in source order. -/
def createAllTables (s : Schema) : Schema :=
  createTableIfNotExists
    (createTableIfNotExists
      (createTableIfNotExists
        (createTableIfNotExists
          (createTableIfNotExists
            (createTableIfNotExists s "users" usersColumns)
            "shopping_items" shoppingItemsColumns)
          "chores" choresColumns)
        "expiry_items" expiryItemsColumns)
      "bills" billsColumns)
    "settings" settingsColumns

/-- `Database.init_db`: create the six tables if absent, then run the
migrations. -/
def init_db (s : Schema) : Schema × List LogEntry :=
  run_migrations (createAllTables s)

/-! ## `authentication.py` — request guards -/

/-- What a guard decides for one request: run the protected view, or
redirect to the login page or the unauthorized page. -/
inductive GuardDecision
  | proceed
  | redirectLogin
  | redirectUnauthorized
  deriving DecidableEq, Repr

/-- The part of the session dictionary the guards read. -/
structure SessionUser where
  id : Nat
  is_admin : Bool
  deriving DecidableEq, Repr

/-- The feature-visibility store as the guard reaches it: either the rows
`(user id, feature name) ↦ flag`, or an error when the store is
unreachable. -/
structure FeatureStore where
  query : Except Unit (List ((Nat × String) × Bool))
  deriving Repr

/-- Modelled from the spec: `get_user_feature_visibility` lives in
`database.py`, which is not among the sources; per §4.5 and §3 the lookup
returns the stored per-user flag, defaults to `true` for a feature with no
explicit row, and on a store failure falls back to `true` (fail open) while
logging the fault. -/
def get_user_feature_visibility (store : FeatureStore) (userId : Nat)
    (feature : String) : Bool × List LogEntry :=
  match store.query with
  | .error _ => (true, [.warning "feature visibility lookup failed"])
  | .ok m =>
    match m.find? (fun p => p.1.1 == userId && p.1.2 == feature) with
    | some p => (p.2, [])
    | none => (true, [])

/-- `authentication.feature_required(feature_name)` applied to one request:
redirect to login when no user is in the session; otherwise look up the
feature's visibility for the session user and redirect to unauthorized
(with a warning log) when it is disabled. -/
def feature_required (feature_name : String) (sess : Option SessionUser)
    (store : FeatureStore) : GuardDecision × List LogEntry :=
  match sess with
  | none => (.redirectLogin, [])
  | some u =>
    let v := get_user_feature_visibility store u.id feature_name
    if !v.1 then
      (.redirectUnauthorized, v.2 ++ [.warning "attempted to access disabled feature"])
    else
      (.proceed, v.2)

/-- `authentication.login_required` applied to one request. -/
def login_required (sess : Option SessionUser) : GuardDecision :=
  match sess with
  | none => .redirectLogin
  | some _ => .proceed

/-- `authentication.admin_required` applied to one request. -/
def admin_required (sess : Option SessionUser) : GuardDecision :=
  match sess with
  | none => .redirectLogin
  | some u => if !u.is_admin then .redirectUnauthorized else .proceed

/-! ## `app.py` — the `/login` route -/

inductive HttpMethod
  | get
  | post
  deriving DecidableEq, Repr

/-- The object `supabase.auth.sign_in_with_password` returns: the
authenticated identity (possibly absent) and the session's access token. -/
structure SignInRes where
  user : Option SupabaseUser
  access_token : String
  deriving DecidableEq, Repr

/-- The session dictionary the login route mints on success. -/
structure SessionDict where
  id : Nat
  supabase_id : Option String
  username : String
  email : String
  full_name : String
  is_admin : Bool
  access_token : String
  deriving DecidableEq, Repr

inductive LoginResponse
  | redirectDashboard
  | renderLogin
  deriving DecidableEq, Repr

/-- Everything observable about one call of the login view: the response,
the flashed `(message, category)` pairs, the session written (if any), the
users table as committed, and whether the identity provider was contacted
(`sign_in_with_password`) or asked to sign out. -/
structure LoginOutcome where
  response : LoginResponse
  flashes : List (String × String)
  sessionSet : Option SessionDict
  store : UsersTable
  providerContacted : Bool
  providerSignOut : Bool
  deriving DecidableEq, Repr

/-- The `/login` view (app.py lines 151–215). `sessionHasUser` is
`"user" in session`; `signIn` is the provider's answer for the posted
credentials (`.error` when `sign_in_with_password` raises); `formEmail` is
the posted email field (the gate reads the form value, the reconciliation
reads the provider's). A `get_or_create_supabase_user` failure is caught by
the route's blanket `except`, which flashes "Invalid email or password". -/
def login (sessionHasUser : Bool) (method : HttpMethod)
    (supabaseAvailable : Bool) (formEmail : String)
    (signIn : Except Unit SignInRes) (ac : AccessControl) (t : UsersTable)
    (now : String) (midCommits : List UserRow) : LoginOutcome :=
  if sessionHasUser then
    { response := .redirectDashboard, flashes := [], sessionSet := none,
      store := t, providerContacted := false, providerSignOut := false }
  else
    match method with
    | .get =>
      { response := .renderLogin, flashes := [], sessionSet := none,
        store := t, providerContacted := false, providerSignOut := false }
    | .post =>
      if !supabaseAvailable then
        { response := .renderLogin,
          flashes := [("Authentication service unavailable", "error")],
          sessionSet := none, store := t,
          providerContacted := false, providerSignOut := false }
      else
        match signIn with
        | .error _ =>
          { response := .renderLogin,
            flashes := [("Invalid email or password", "error")],
            sessionSet := none, store := t,
            providerContacted := true, providerSignOut := false }
        | .ok res =>
          match res.user with
          | none =>
            { response := .renderLogin, flashes := [], sessionSet := none,
              store := t, providerContacted := true, providerSignOut := false }
          | some su =>
            if loginDenied ac formEmail then
              { response := .renderLogin,
                flashes := [("Access denied. You are not authorized.", "error")],
                sessionSet := none, store := t,
                providerContacted := true, providerSignOut := true }
            else
              match get_or_create_supabase_user t su ac now midCommits with
              | .error _ =>
                { response := .renderLogin,
                  flashes := [("Invalid email or password", "error")],
                  sessionSet := none,
                  store := { t with rows := t.rows ++ midCommits },
                  providerContacted := true, providerSignOut := false }
              | .ok r =>
                match r.user with
                | none =>
                  { response := .renderLogin,
                    flashes := [("Invalid email or password", "error")],
                    sessionSet := none, store := r.store,
                    providerContacted := true, providerSignOut := false }
                | some u =>
                  { response := .redirectDashboard,
                    flashes := [("Welcome back, " ++ u.full_name ++ "!", "success")],
                    sessionSet := some
                      { id := u.id, supabase_id := u.supabase_id,
                        username := u.username, email := u.email,
                        full_name := u.full_name, is_admin := u.is_admin,
                        access_token := res.access_token },
                    store := r.store,
                    providerContacted := true, providerSignOut := false }

/-! ## Preservation lemmas for the row transformers -/

@[simp] theorem applyLoginInfo_id (uid : Nat) (now fn : String) (a : Bool)
    (r : UserRow) : (applyLoginInfo uid now fn a r).id = r.id := by
  unfold applyLoginInfo; split <;> rfl

@[simp] theorem applyLoginInfo_supabase_id (uid : Nat) (now fn : String) (a : Bool)
    (r : UserRow) : (applyLoginInfo uid now fn a r).supabase_id = r.supabase_id := by
  unfold applyLoginInfo; split <;> rfl

@[simp] theorem applyLoginInfo_email (uid : Nat) (now fn : String) (a : Bool)
    (r : UserRow) : (applyLoginInfo uid now fn a r).email = r.email := by
  unfold applyLoginInfo; split <;> rfl

@[simp] theorem applyLoginInfo_username (uid : Nat) (now fn : String) (a : Bool)
    (r : UserRow) : (applyLoginInfo uid now fn a r).username = r.username := by
  unfold applyLoginInfo; split <;> rfl

@[simp] theorem applyLoginInfo_created_at (uid : Nat) (now fn : String) (a : Bool)
    (r : UserRow) : (applyLoginInfo uid now fn a r).created_at = r.created_at := by
  unfold applyLoginInfo; split <;> rfl

@[simp] theorem applyLoginInfo_last_activity (uid : Nat) (now fn : String) (a : Bool)
    (r : UserRow) : (applyLoginInfo uid now fn a r).last_activity = r.last_activity := by
  unfold applyLoginInfo; split <;> rfl

@[simp] theorem applyBackfill_id (uid : Nat) (sid : String) (r : UserRow) :
    (applyBackfill uid sid r).id = r.id := by
  unfold applyBackfill; split <;> rfl

@[simp] theorem applyBackfill_email (uid : Nat) (sid : String) (r : UserRow) :
    (applyBackfill uid sid r).email = r.email := by
  unfold applyBackfill; split <;> rfl

@[simp] theorem applyBackfill_username (uid : Nat) (sid : String) (r : UserRow) :
    (applyBackfill uid sid r).username = r.username := by
  unfold applyBackfill; split <;> rfl

@[simp] theorem applyBackfill_full_name (uid : Nat) (sid : String) (r : UserRow) :
    (applyBackfill uid sid r).full_name = r.full_name := by
  unfold applyBackfill; split <;> rfl

@[simp] theorem applyBackfill_is_admin (uid : Nat) (sid : String) (r : UserRow) :
    (applyBackfill uid sid r).is_admin = r.is_admin := by
  unfold applyBackfill; split <;> rfl

@[simp] theorem applyBackfill_last_login (uid : Nat) (sid : String) (r : UserRow) :
    (applyBackfill uid sid r).last_login = r.last_login := by
  unfold applyBackfill; split <;> rfl

@[simp] theorem applyBackfill_created_at (uid : Nat) (sid : String) (r : UserRow) :
    (applyBackfill uid sid r).created_at = r.created_at := by
  unfold applyBackfill; split <;> rfl

@[simp] theorem applyBackfill_last_activity (uid : Nat) (sid : String) (r : UserRow) :
    (applyBackfill uid sid r).last_activity = r.last_activity := by
  unfold applyBackfill; split <;> rfl

/-! ## C1 — the login gate's authorization rule -/

/-- C1: for a policy loaded by `load_access_control`, the login gate
authorizes an email E iff the allowlist is empty, or `lower(E)` is in the
allowlist, or `lower(E)` is in the admins list; so with a non-empty
allowlist an admin email absent from the allowlist is still granted access,
and with an empty allowlist every provider-authenticated email is granted
access. -/
theorem login_gate_authorized_iff (adminStr allowedStr E : String)
    (ac : AccessControl) (hac : ac = load_access_control adminStr allowedStr) :
    isAuthorized ac E = true ↔
      (ac.allowed_emails = [] ∨ pyLower E ∈ ac.allowed_emails ∨
        pyLower E ∈ ac.admin_emails) := by
  subst hac
  unfold isAuthorized loginDenied load_access_control
  simp only [map_pyLower_parseEmails]
  simp [List.isEmpty_iff, List.contains, List.elem_iff]
  tauto

theorem login_gate_authorized_iff_witness :
    isAuthorized (load_access_control "b@x.com" "a@x.com") "B@x.com" = true ↔
      ((load_access_control "b@x.com" "a@x.com").allowed_emails = [] ∨
        pyLower "B@x.com" ∈ (load_access_control "b@x.com" "a@x.com").allowed_emails ∨
        pyLower "B@x.com" ∈ (load_access_control "b@x.com" "a@x.com").admin_emails) :=
  login_gate_authorized_iff "b@x.com" "a@x.com" "B@x.com" _ rfl

/-! ## C10 — the login route with an existing session -/

/-- C10: a request to the login route (GET or POST) made while a session
artifact is present is answered by an immediate redirect to the dashboard;
the outcome is the same for every method, policy, provider answer and
store, the provider is not contacted and no sign-out, flash, session write
or store change happens. -/
theorem login_with_session_redirects (m : HttpMethod) (sup : Bool)
    (fe : String) (si : Except Unit SignInRes) (ac : AccessControl)
    (t : UsersTable) (now : String) (mid : List UserRow) :
    login true m sup fe si ac t now mid =
      { response := .redirectDashboard, flashes := [], sessionSet := none,
        store := t, providerContacted := false, providerSignOut := false } := rfl

/-! ## Path lemmas for `get_or_create_supabase_user` -/

theorem find?_congr_mem {α : Type} {p q : α → Bool} {l : List α}
    (h : ∀ x ∈ l, p x = q x) : l.find? p = l.find? q := by
  induction l with
  | nil => rfl
  | cons a as ih =>
    have ha := h a (List.mem_cons_self a as)
    simp only [List.find?_cons, ha]
    cases hq : q a
    · exact ih fun x hx => h x (List.mem_cons_of_mem a hx)
    · rfl

theorem findBySupabaseId_setLoginInfo (t : UsersTable) (uid : Nat)
    (now fn : String) (a : Bool) (sid : String) :
    findBySupabaseId (setLoginInfo t uid now fn a) sid =
      (findBySupabaseId t sid).map (applyLoginInfo uid now fn a) := by
  have hp : ((fun r : UserRow => r.supabase_id == some sid) ∘ applyLoginInfo uid now fn a)
      = (fun r : UserRow => r.supabase_id == some sid) := by
    funext r; simp [Function.comp]
  unfold findBySupabaseId setLoginInfo
  rw [List.find?_map, hp]

theorem findById_setSupabaseId (t : UsersTable) (uid : Nat) (sid : String)
    (uid' : Nat) :
    findById (setSupabaseId t uid sid) uid' =
      (findById t uid').map (applyBackfill uid sid) := by
  have hp : ((fun r : UserRow => r.id == uid') ∘ applyBackfill uid sid)
      = (fun r : UserRow => r.id == uid') := by
    funext r; simp [Function.comp]
  unfold findById setSupabaseId
  rw [List.find?_map, hp]

/-- The primary-lookup branch of the reconciliation, as one equation. -/
theorem reconcile_primary_eq (t : UsersTable) (su : SupabaseUser)
    (ac : AccessControl) (now : String) (mid : List UserRow) (u : UserRow)
    (h : findBySupabaseId t su.id = some u) :
    get_or_create_supabase_user t su ac now mid =
      .ok { user := some u,
            store := setLoginInfo t u.id now (fullNameOf su) (isAdminOf ac su.email),
            path := .primary, connClosed := true } := by
  unfold get_or_create_supabase_user
  rw [h]

/-- The email-fallback branch of the reconciliation, as one equation. -/
theorem reconcile_email_eq (t : UsersTable) (su : SupabaseUser)
    (ac : AccessControl) (now : String) (mid : List UserRow) (u0 u1 : UserRow)
    (h1 : findBySupabaseId t su.id = none)
    (h2 : findByEmail t su.email = some u0)
    (h3 : findById (setSupabaseId t u0.id su.id) u0.id = some u1) :
    get_or_create_supabase_user t su ac now mid =
      .ok { user := some u1,
            store := setLoginInfo (setSupabaseId t u0.id su.id) u1.id now
              (fullNameOf su) (isAdminOf ac su.email),
            path := .emailBackfill, connClosed := true } := by
  unfold get_or_create_supabase_user
  rw [h1, h2]
  simp only [h3]

/-- After the backfill UPDATE, the re-read by id finds a row: it carries
`u0`'s id and the freshly backfilled supabase id. -/
theorem findById_backfill_exists (t : UsersTable) (su : SupabaseUser) (u0 : UserRow)
    (h2 : findByEmail t su.email = some u0) :
    ∃ u1, findById (setSupabaseId t u0.id su.id) u0.id = some u1 ∧
      u1.id = u0.id ∧ u1.supabase_id = some su.id := by
  have hmem : u0 ∈ t.rows := List.mem_of_find?_eq_some h2
  have hsome : (findById t u0.id).isSome := by
    unfold findById
    rw [List.find?_isSome]
    exact ⟨u0, hmem, by simp⟩
  obtain ⟨w, hw⟩ := Option.isSome_iff_exists.mp hsome
  have hwid : w.id = u0.id := by
    have := List.find?_some hw
    simpa using this
  refine ⟨applyBackfill u0.id su.id w, ?_, by simp [hwid], ?_⟩
  · rw [findById_setSupabaseId, hw]
    rfl
  · unfold applyBackfill
    rw [if_pos (by simp [hwid])]

/-- The create branch never returns a record: when the INSERT conflicts it
raises the uniqueness violation, and otherwise the `conn.lastrowid` read
raises the `AttributeError` (see `createUser`). -/
theorem createUser_ne_ok (t : UsersTable) (username email full_name sid : String)
    (is_admin : Bool) (now : String) (mid : List UserRow) (r : ReconcileOk) :
    createUser t username email full_name sid is_admin now mid ≠ .ok r := by
  intro h
  unfold createUser at h
  cases hI : insertUser { t with rows := t.rows ++ mid } username email full_name
      sid is_admin now now with
  | error e =>
    simp only [hI] at h
    exact Except.noConfusion h
  | ok p =>
    simp only [hI] at h
    exact Except.noConfusion h

/-- After any successful sequential reconciliation, the committed store
resolves the provider's external id by the primary lookup, at the same
local id as the returned record. -/
theorem reconcile_post_sid (t : UsersTable) (su : SupabaseUser)
    (ac : AccessControl) (now : String) (r : ReconcileOk)
    (h : get_or_create_supabase_user t su ac now [] = .ok r) :
    ∃ u v, r.user = some u ∧ findBySupabaseId r.store su.id = some v ∧
      v.id = u.id := by
  cases hA : findBySupabaseId t su.id with
  | some u =>
    rw [reconcile_primary_eq t su ac now [] u hA] at h
    injection h with h
    subst h
    refine ⟨u, applyLoginInfo u.id now (fullNameOf su) (isAdminOf ac su.email) u,
      rfl, ?_, by simp⟩
    rw [findBySupabaseId_setLoginInfo, hA]
    rfl
  | none =>
    have hAn := hA
    unfold findBySupabaseId at hAn
    cases hB : findByEmail t su.email with
    | some u0 =>
      obtain ⟨u1, h3, hid1, hsid1⟩ := findById_backfill_exists t su u0 hB
      rw [reconcile_email_eq t su ac now [] u0 u1 hA hB h3] at h
      injection h with h
      subst h
      have htb : findBySupabaseId (setSupabaseId t u0.id su.id) su.id = some u1 := by
        have hcong : ∀ x ∈ t.rows,
            ((fun r : UserRow => r.supabase_id == some su.id) ∘ applyBackfill u0.id su.id) x
              = (fun r : UserRow => r.id == u0.id) x := by
          intro x hx
          have hs := List.find?_eq_none.mp hAn x hx
          simp only [Function.comp, applyBackfill]
          by_cases hxid : (x.id == u0.id) = true
          · simp [hxid]
          · simp only [hxid, if_false, Bool.not_eq_true] at *
            simp [hxid, hs]
        have h3' := h3
        rw [findById_setSupabaseId] at h3'
        unfold findById at h3'
        unfold findBySupabaseId setSupabaseId
        rw [List.find?_map, find?_congr_mem hcong]
        exact h3'
      refine ⟨u1, applyLoginInfo u1.id now (fullNameOf su) (isAdminOf ac su.email) u1,
        rfl, ?_, by simp⟩
      rw [findBySupabaseId_setLoginInfo, htb]
      rfl
    | none =>
      unfold get_or_create_supabase_user at h
      rw [hA, hB] at h
      exact absurd h (createUser_ne_ok _ _ _ _ _ _ _ _ _)

/-! ## C2 — reconciliation of a first-time identity -/

/-- A first-time identity used by concrete instances below. -/
def c2su : SupabaseUser := ⟨"sid-1", "alice@x.com", []⟩

/-- C2 (code evaluated at the failing input): for a first-time identity on
an empty store — the very first reconciled login — the call never returns a
record: the create path executes the INSERT and then reads
`conn.lastrowid` (models.py line 224), an attribute `sqlite3.Connection`
does not have, so an `AttributeError` propagates before `conn.commit()`.
No row is created, nothing is returned, and `conn.close()` is not reached,
so the claimed call-twice idempotency (same local user id from both calls)
cannot even start for first-time identities. -/
theorem reconcile_create_path_always_raises :
    get_or_create_supabase_user ⟨[], 1⟩ c2su ⟨[], []⟩ "t1" [] =
      .error (.attributeError "Connection object has no attribute lastrowid",
        false) := rfl

/-! ## C6 — the email-fallback backfill happens exactly once -/

/-- C6: a pre-existing row that matches the asserted email and has no
external-identity reference is backfilled in place: the first
reconciliation takes the email-fallback path, writes `su.id` into that
row's `supabase_id`, creates no new row, and returns a record with the
row's id; a later reconciliation with the same external identity resolves
by the primary lookup, not the email fallback. -/
theorem reconcile_backfill_once (t : UsersTable) (su : SupabaseUser)
    (ac : AccessControl) (n1 n2 : String) (u0 : UserRow)
    (h1 : findBySupabaseId t su.id = none)
    (h2 : findByEmail t su.email = some u0)
    (_h0 : u0.supabase_id = none) :
    ∃ r1 u1, get_or_create_supabase_user t su ac n1 [] = .ok r1 ∧
      r1.path = .emailBackfill ∧
      r1.user = some u1 ∧ u1.id = u0.id ∧ u1.supabase_id = some su.id ∧
      r1.store.rows.length = t.rows.length ∧
      (∀ x ∈ r1.store.rows, x.id = u0.id → x.supabase_id = some su.id) ∧
      ∃ r2, get_or_create_supabase_user r1.store su ac n2 [] = .ok r2 ∧
        r2.path = .primary := by
  obtain ⟨u1, h3, hid1, hsid1⟩ := findById_backfill_exists t su u0 h2
  have heq := reconcile_email_eq t su ac n1 [] u0 u1 h1 h2 h3
  refine ⟨_, u1, heq, rfl, rfl, hid1, hsid1, ?_, ?_, ?_⟩
  · simp [setLoginInfo, setSupabaseId]
  · intro x hx hxid
    simp only [setLoginInfo, setSupabaseId, List.map_map] at hx
    obtain ⟨y, _, rfl⟩ := List.mem_map.mp hx
    simp only [Function.comp] at hxid ⊢
    rw [applyLoginInfo_supabase_id]
    have hyid : y.id = u0.id := by simpa using hxid
    unfold applyBackfill
    rw [if_pos (by simp [hyid])]
  · obtain ⟨u, v, _, hfind, _⟩ := reconcile_post_sid t su ac n1 _ heq
    exact ⟨_, reconcile_primary_eq _ su ac n2 [] v hfind, rfl⟩

/-- A legacy row (created before the Supabase migration) for the witness. -/
def c6row : UserRow :=
  ⟨1, "alice", "alice@x.com", "Alice", false, none, none, "t0", none⟩

theorem reconcile_backfill_once_witness :
    ∃ r1 u1, get_or_create_supabase_user ⟨[c6row], 2⟩ c2su ⟨[], []⟩ "t1" [] = .ok r1 ∧
      r1.path = .emailBackfill ∧
      r1.user = some u1 ∧ u1.id = c6row.id ∧ u1.supabase_id = some c2su.id ∧
      r1.store.rows.length = (⟨[c6row], 2⟩ : UsersTable).rows.length ∧
      (∀ x ∈ r1.store.rows, x.id = c6row.id → x.supabase_id = some c2su.id) ∧
      ∃ r2, get_or_create_supabase_user r1.store c2su ⟨[], []⟩ "t2" [] = .ok r2 ∧
        r2.path = .primary :=
  reconcile_backfill_once ⟨[c6row], 2⟩ c2su ⟨[], []⟩ "t1" "t2" c6row rfl rfl rfl

/-! ## C9 — frame property of the update path -/

/-- C9: when the reconciliation resolves an existing record (primary or
email-fallback path), the committed store is a row-by-row image of the old
one — same length, and every row keeps its id, email, username, created_at
and last_activity (only full_name, is_admin, last_login, and on the
fallback path supabase_id, can change); no row is deleted. -/
theorem reconcile_update_frame (t : UsersTable) (su : SupabaseUser)
    (ac : AccessControl) (now : String) (mid : List UserRow) (r : ReconcileOk)
    (h : get_or_create_supabase_user t su ac now mid = .ok r)
    (hpath : r.path ≠ ReconcilePath.created) :
    r.store.rows.length = t.rows.length ∧
    ∃ f, r.store.rows = t.rows.map f ∧ ∀ x : UserRow,
      (f x).id = x.id ∧ (f x).email = x.email ∧ (f x).username = x.username ∧
      (f x).created_at = x.created_at ∧ (f x).last_activity = x.last_activity := by
  cases hA : findBySupabaseId t su.id with
  | some u =>
    rw [reconcile_primary_eq t su ac now mid u hA] at h
    injection h with h
    subst h
    refine ⟨by simp [setLoginInfo], applyLoginInfo u.id now (fullNameOf su) (isAdminOf ac su.email),
      rfl, fun x => ⟨by simp, by simp, by simp, by simp, by simp⟩⟩
  | none =>
    cases hB : findByEmail t su.email with
    | some u0 =>
      obtain ⟨u1, h3, _, _⟩ := findById_backfill_exists t su u0 hB
      rw [reconcile_email_eq t su ac now mid u0 u1 hA hB h3] at h
      injection h with h
      subst h
      refine ⟨by simp [setLoginInfo, setSupabaseId], ?_⟩
      refine ⟨applyLoginInfo u1.id now (fullNameOf su) (isAdminOf ac su.email) ∘
        applyBackfill u0.id su.id, ?_,
        fun x => ⟨by simp [Function.comp], by simp [Function.comp],
          by simp [Function.comp], by simp [Function.comp], by simp [Function.comp]⟩⟩
      simp [setLoginInfo, setSupabaseId, List.map_map]
    | none =>
      unfold get_or_create_supabase_user at h
      rw [hA, hB] at h
      exact absurd h (createUser_ne_ok _ _ _ _ _ _ _ _ _)

/-- The pre-existing row and identity for the C9 witness (primary path). -/
def c9row : UserRow :=
  ⟨1, "bob", "bob@x.com", "Bob", false, some "sid-9", none, "t0", none⟩

def c9su : SupabaseUser := ⟨"sid-9", "bob@x.com", []⟩

example : get_or_create_supabase_user ⟨[c9row], 2⟩ c9su ⟨[], []⟩ "t1" [] =
    .ok ⟨some c9row,
      ⟨[⟨1, "bob", "bob@x.com", "bob", false, some "sid-9", some "t1", "t0", none⟩], 2⟩,
      .primary, true⟩ := rfl

theorem reconcile_update_frame_witness :
    (⟨some c9row,
      ⟨[⟨1, "bob", "bob@x.com", "bob", false, some "sid-9", some "t1", "t0", none⟩], 2⟩,
      .primary, true⟩ : ReconcileOk).store.rows.length =
        (⟨[c9row], 2⟩ : UsersTable).rows.length ∧
    ∃ f, (⟨some c9row,
      ⟨[⟨1, "bob", "bob@x.com", "bob", false, some "sid-9", some "t1", "t0", none⟩], 2⟩,
      .primary, true⟩ : ReconcileOk).store.rows = (⟨[c9row], 2⟩ : UsersTable).rows.map f ∧
      ∀ x : UserRow,
        (f x).id = x.id ∧ (f x).email = x.email ∧ (f x).username = x.username ∧
        (f x).created_at = x.created_at ∧ (f x).last_activity = x.last_activity :=
  reconcile_update_frame ⟨[c9row], 2⟩ c9su ⟨[], []⟩ "t1" [] _ rfl (by decide)

/-! ## C4 — admin flag recomputation vs. the stale returned record -/

/-- C4 (amended): for an email in the loaded policy's admins list, when the
identity is resolved by the primary lookup the *stored* row's is_admin is
recomputed to true (a stored value never survives a disagreeing policy),
but the *returned* record is the pre-update snapshot, so its is_admin shows
the previous stored value, not the recomputed one. -/
theorem reconcile_admin_recompute (adminStr allowedStr : String)
    (ac : AccessControl) (t : UsersTable) (su : SupabaseUser) (now : String)
    (mid : List UserRow) (u0 : UserRow) (r : ReconcileOk)
    (hac : ac = load_access_control adminStr allowedStr)
    (hE : su.email ∈ ac.admin_emails)
    (hfound : findBySupabaseId t su.id = some u0)
    (h : get_or_create_supabase_user t su ac now mid = .ok r) :
    r.user = some u0 ∧
    (∀ x ∈ r.store.rows, x.id = u0.id → x.is_admin = true) := by
  have hadm : isAdminOf ac su.email = true := by
    have hlow : pyLower su.email = su.email := by
      subst hac
      exact mem_parseEmails_lower hE
    unfold isAdminOf
    rw [hlow]
    exact List.elem_iff.mpr hE
  rw [reconcile_primary_eq t su ac now mid u0 hfound] at h
  injection h with h
  subst h
  refine ⟨rfl, ?_⟩
  intro x hx hxid
  simp only [setLoginInfo] at hx
  obtain ⟨y, _, rfl⟩ := List.mem_map.mp hx
  have hyid : y.id = u0.id := by simpa using hxid
  unfold applyLoginInfo
  rw [if_pos (by simp [hyid])]
  exact hadm

/-- The pre-existing non-admin row for the C4 scenario. -/
def c4row : UserRow :=
  ⟨1, "b", "b@x.com", "B", false, some "sid-4", none, "t0", none⟩

def c4su : SupabaseUser := ⟨"sid-4", "b@x.com", []⟩

def c4ac : AccessControl := load_access_control "b@x.com" ""

/-- C4 counterexample: `b@x.com` is in the loaded admins list and a prior
record for that identity has `is_admin = false`; the reconciliation commits
`is_admin = true` to the store but *returns* the pre-update record, whose
`is_admin` is still `false` — so reconciling does not yield a record with
`is_admin = true`. -/
theorem reconcile_admin_stale_counterexample :
    "b@x.com" ∈ c4ac.admin_emails ∧
    findBySupabaseId ⟨[c4row], 2⟩ c4su.id = some c4row ∧
    c4row.is_admin = false ∧
    get_or_create_supabase_user ⟨[c4row], 2⟩ c4su c4ac "t1" [] =
      .ok ⟨some c4row,
        ⟨[⟨1, "b", "b@x.com", "b", true, some "sid-4", some "t1", "t0", none⟩], 2⟩,
        .primary, true⟩ :=
  ⟨by decide, rfl, rfl, rfl⟩

theorem reconcile_admin_recompute_witness :
    (⟨some c4row,
      ⟨[⟨1, "b", "b@x.com", "b", true, some "sid-4", some "t1", "t0", none⟩], 2⟩,
      .primary, true⟩ : ReconcileOk).user = some c4row ∧
    (∀ x ∈ (⟨some c4row,
      ⟨[⟨1, "b", "b@x.com", "b", true, some "sid-4", some "t1", "t0", none⟩], 2⟩,
      .primary, true⟩ : ReconcileOk).store.rows, x.id = c4row.id → x.is_admin = true) :=
  reconcile_admin_recompute "b@x.com" "" c4ac ⟨[c4row], 2⟩ c4su "t1" [] c4row _
    rfl (by decide) rfl rfl

/-! ## C3 — uniqueness violation on the create path -/

/-- C3 (amended): when a concurrent registration commits a row with the
same email between the lookups and the INSERT, the INSERT's uniqueness
violation propagates out of `get_or_create_supabase_user` (there is no
re-read; the login handler catches it and reports a failed login), and the
store still holds exactly one row for that email. -/
theorem reconcile_insert_race_propagates (t : UsersTable) (su : SupabaseUser)
    (ac : AccessControl) (now : String) (r0 : UserRow)
    (h1 : findBySupabaseId t su.id = none)
    (h2 : findByEmail t su.email = none)
    (h3 : r0.email = su.email) :
    get_or_create_supabase_user t su ac now [r0] =
      .error (.integrityError "UNIQUE constraint failed: users", false) ∧
    (t.rows ++ [r0]).countP (fun x => x.email == su.email) = 1 := by
  have henone := List.find?_eq_none.mp h2
  have hc : insertConflict (t.rows ++ [r0]) su.email su.id = true := by
    unfold insertConflict
    rw [List.any_eq_true]
    exact ⟨r0, by simp, by simp [h3]⟩
  constructor
  · unfold get_or_create_supabase_user
    rw [h1, h2]
    unfold createUser insertUser
    simp only [hc, if_true]
  · rw [List.countP_append]
    have h0 : t.rows.countP (fun x => x.email == su.email) = 0 := by
      rw [List.countP_eq_zero]
      intro a ha
      have := henone a ha
      simpa using this
    rw [h0]
    simp [h3, List.countP_cons]

/-- C3 counterexample: on an empty store, with a concurrent commit of a row
carrying the same brand-new email, the call returns the raw uniqueness
error instead of re-reading and returning the now-existing record. -/
theorem reconcile_insert_race_counterexample :
    get_or_create_supabase_user ⟨[], 1⟩ ⟨"sid-3", "new@x.com", []⟩ ⟨[], []⟩ "t1"
      [⟨1, "new", "new@x.com", "New", false, some "sid-3b", some "t1", "t1", none⟩] =
      .error (.integrityError "UNIQUE constraint failed: users", false) := rfl

/-- The concurrently committed row for the C3 witness. -/
def c3brow : UserRow :=
  ⟨1, "x", "x@y.com", "X", false, some "sid-3c", some "t1", "t1", none⟩

theorem reconcile_insert_race_propagates_witness :
    get_or_create_supabase_user ⟨[], 1⟩ ⟨"sid-3d", "x@y.com", []⟩ ⟨[], []⟩ "t1" [c3brow] =
      .error (.integrityError "UNIQUE constraint failed: users", false) ∧
    ((⟨[], 1⟩ : UsersTable).rows ++ [c3brow]).countP
      (fun x => x.email == (⟨"sid-3d", "x@y.com", []⟩ : SupabaseUser).email) = 1 :=
  reconcile_insert_race_propagates ⟨[], 1⟩ ⟨"sid-3d", "x@y.com", []⟩ ⟨[], []⟩ "t1"
    c3brow rfl rfl rfl

/-! ## C8 — the connection is leaked on the insert-error exit path -/

/-- C8 (code evaluated at the failing input): when the INSERT raises the
uniqueness violation, `get_or_create_supabase_user` propagates it without
reaching `conn.close()` — the `false` in the error payload records that the
connection was left open on this exit path, contradicting the release-on-
every-exit-path contract. -/
theorem reconcile_leaks_connection_on_insert_error :
    get_or_create_supabase_user ⟨[], 1⟩ ⟨"sid-8", "carol@x.com", []⟩ ⟨[], []⟩ "t1"
      [⟨1, "carol", "carol@x.com", "Carol", false, some "sid-8b", some "t0", "t0", none⟩] =
      .error (.integrityError "UNIQUE constraint failed: users", false) := rfl

/-! ## C7 — the feature guard fails open on a store failure -/

/-- C7: for an authenticated request, when the visibility lookup itself
fails (the feature store is unreachable), the feature guard proceeds to the
protected operation as if visibility were true and logs the fault — it
neither redirects nor surfaces the error. -/
theorem feature_guard_fails_open (feature : String) (u : SessionUser)
    (store : FeatureStore) (hfail : store.query = .error ()) :
    feature_required feature (some u) store =
      (.proceed, [.warning "feature visibility lookup failed"]) := by
  unfold feature_required get_user_feature_visibility
  rw [hfail]
  rfl

theorem feature_guard_fails_open_witness :
    feature_required "bills" (some ⟨1, false⟩) ⟨.error ()⟩ =
      (.proceed, [.warning "feature visibility lookup failed"]) :=
  feature_guard_fails_open "bills" ⟨1, false⟩ ⟨.error ()⟩ rfl

/-! ## C5 — lemmas about the migration runner -/

@[simp] theorem addColumn_name (n col : String) (u : TableSchema) :
    (addColumn n col u).name = u.name := by
  unfold addColumn; split <;> rfl

theorem hasTable_create_self (s : Schema) (n : String) (cols : List String) :
    hasTable (createTableIfNotExists s n cols) n = true := by
  unfold createTableIfNotExists
  split
  · assumption
  · unfold hasTable
    rw [List.any_append]
    simp

theorem hasTable_create_mono (s : Schema) (n : String) (cols : List String)
    (m : String) (h : hasTable s m = true) :
    hasTable (createTableIfNotExists s n cols) m = true := by
  unfold createTableIfNotExists
  split
  · exact h
  · unfold hasTable at h ⊢
    rw [List.any_append, h]
    rfl

theorem hasTable_map_addColumn (s : Schema) (n col m : String) :
    hasTable (s.map (addColumn n col)) m = hasTable s m := by
  unfold hasTable
  rw [List.any_map]
  congr 1
  funext u
  simp [Function.comp]

theorem alter_ok_shape (s : Schema) (n col : String) (s' : Schema)
    (h : alterTableAddColumn s n col = .ok s') :
    s' = s.map (addColumn n col) := by
  unfold alterTableAddColumn at h
  cases hf : s.find? (fun t => t.name == n) with
  | none =>
    simp only [hf] at h
    exact Except.noConfusion h
  | some t =>
    simp only [hf] at h
    by_cases hc : t.columns.contains col = true
    · rw [if_pos hc] at h; cases h
    · rw [if_neg hc] at h
      injection h with h
      exact h.symm

theorem runOneMigration_fst_error (s : Schema) (m : (String × String) × String)
    (e : SqliteError) (h : alterTableAddColumn s m.1.1 m.1.2 = .error e) :
    (runOneMigration s m).1 = s := by
  unfold runOneMigration
  cases e with
  | operationalError msg =>
    simp only [h]
    split <;> rfl

theorem hasTable_runOneMigration (s : Schema) (m : (String × String) × String)
    (n : String) : hasTable (runOneMigration s m).1 n = hasTable s n := by
  cases halter : alterTableAddColumn s m.1.1 m.1.2 with
  | error e => rw [runOneMigration_fst_error s m e halter]
  | ok s' =>
    unfold runOneMigration
    simp only [halter]
    rw [alter_ok_shape s m.1.1 m.1.2 s' halter]
    exact hasTable_map_addColumn s m.1.1 m.1.2 n

theorem tableHasColumn_true_iff (s : Schema) (n col : String) :
    tableHasColumn s n col = true ↔
      ∃ t, s.find? (fun u => u.name == n) = some t ∧ t.columns.contains col = true := by
  unfold tableHasColumn
  cases h : s.find? (fun u => u.name == n) <;> simp [h]

theorem find?_map_addColumn (s : Schema) (n col m : String) :
    (s.map (addColumn n col)).find? (fun u => u.name == m) =
      (s.find? (fun u => u.name == m)).map (addColumn n col) := by
  have hp : ((fun u : TableSchema => u.name == m) ∘ addColumn n col)
      = (fun u : TableSchema => u.name == m) := by
    funext u; simp [Function.comp]
  rw [List.find?_map, hp]

theorem tableHasColumn_map_addColumn_mono (s : Schema) (n col n' col' : String)
    (h : tableHasColumn s n' col' = true) :
    tableHasColumn (s.map (addColumn n col)) n' col' = true := by
  obtain ⟨t, hf, hc⟩ := (tableHasColumn_true_iff s n' col').mp h
  apply (tableHasColumn_true_iff _ n' col').mpr
  refine ⟨addColumn n col t, ?_, ?_⟩
  · rw [find?_map_addColumn, hf]
    rfl
  · unfold addColumn
    split
    · rw [List.contains_eq_any_beq] at hc ⊢
      rw [List.any_append, hc]
      rfl
    · exact hc

theorem hasTable_find?_isSome (s : Schema) (n : String) (h : hasTable s n = true) :
    ∃ t, s.find? (fun u => u.name == n) = some t := by
  unfold hasTable at h
  rw [List.any_eq_true] at h
  obtain ⟨x, hx, hp⟩ := h
  apply Option.isSome_iff_exists.mp
  rw [List.find?_isSome]
  exact ⟨x, hx, hp⟩

theorem tableHasColumn_runOneMigration_self (s : Schema) (tbl col d : String)
    (htab : hasTable s tbl = true) :
    tableHasColumn (runOneMigration s ((tbl, col), d)).1 tbl col = true := by
  obtain ⟨t, hf⟩ := hasTable_find?_isSome s tbl htab
  by_cases hc : t.columns.contains col = true
  · have herr : alterTableAddColumn s tbl col =
        .error (.operationalError ("duplicate column name: " ++ col)) := by
      unfold alterTableAddColumn
      simp only [hf]
      rw [if_pos hc]
    rw [runOneMigration_fst_error s ((tbl, col), d) _ herr]
    exact (tableHasColumn_true_iff s tbl col).mpr ⟨t, hf, hc⟩
  · have hok : alterTableAddColumn s tbl col = .ok (s.map (addColumn tbl col)) := by
      unfold alterTableAddColumn
      simp only [hf]
      rw [if_neg hc]
    unfold runOneMigration
    simp only [hok]
    apply (tableHasColumn_true_iff _ tbl col).mpr
    have hname : (t.name == tbl) = true := by
      have := List.find?_some hf
      simpa using this
    refine ⟨addColumn tbl col t, ?_, ?_⟩
    · rw [find?_map_addColumn, hf]
      rfl
    · unfold addColumn
      rw [if_pos hname]
      rw [List.contains_eq_any_beq, List.any_append]
      simp

theorem tableHasColumn_runOneMigration_mono (s : Schema)
    (m : (String × String) × String) (n' col' : String)
    (h : tableHasColumn s n' col' = true) :
    tableHasColumn (runOneMigration s m).1 n' col' = true := by
  cases halter : alterTableAddColumn s m.1.1 m.1.2 with
  | error e =>
    rw [runOneMigration_fst_error s m e halter]
    exact h
  | ok s' =>
    unfold runOneMigration
    simp only [halter]
    rw [alter_ok_shape s m.1.1 m.1.2 s' halter]
    exact tableHasColumn_map_addColumn_mono s m.1.1 m.1.2 n' col' h

theorem run_migrations_fst (s : Schema) :
    (run_migrations s).1 =
      (runOneMigration ((runOneMigration ((runOneMigration
        ((runOneMigration s mig1).1) mig2).1) mig3).1) mig4).1 := rfl

/-- All six tables exist after the create phase. -/
theorem hasTable_createAllTables (s : Schema) :
    hasTable (createAllTables s) "users" = true ∧
    hasTable (createAllTables s) "shopping_items" = true ∧
    hasTable (createAllTables s) "chores" = true ∧
    hasTable (createAllTables s) "expiry_items" = true ∧
    hasTable (createAllTables s) "bills" = true ∧
    hasTable (createAllTables s) "settings" = true := by
  unfold createAllTables
  refine ⟨?_, ?_, ?_, ?_, ?_, ?_⟩ <;>
    (repeat' first
      | exact hasTable_create_self _ _ _
      | apply hasTable_create_mono)

/-- The schema state that makes every migration a no-op: all six tables
exist and all four migration columns are present. -/
def fullyMigrated (s : Schema) : Bool :=
  hasTable s "users" && hasTable s "shopping_items" && hasTable s "chores" &&
  hasTable s "expiry_items" && hasTable s "bills" && hasTable s "settings" &&
  tableHasColumn s "shopping_items" "completed" &&
  tableHasColumn s "shopping_items" "completed_by" &&
  tableHasColumn s "shopping_items" "completed_at" &&
  tableHasColumn s "users" "supabase_id"

theorem fullyMigrated_init_db (s : Schema) : fullyMigrated (init_db s).1 = true := by
  obtain ⟨hU, hS, hC, hE, hB, hSe⟩ := hasTable_createAllTables s
  have e : (init_db s).1 =
      (runOneMigration ((runOneMigration ((runOneMigration
        ((runOneMigration (createAllTables s) mig1).1) mig2).1) mig3).1) mig4).1 := by
    unfold init_db
    exact run_migrations_fst _
  have hT : ∀ n,
      hasTable ((runOneMigration ((runOneMigration ((runOneMigration
        ((runOneMigration (createAllTables s) mig1).1) mig2).1) mig3).1) mig4).1) n =
      hasTable (createAllTables s) n := by
    intro n
    rw [hasTable_runOneMigration, hasTable_runOneMigration,
      hasTable_runOneMigration, hasTable_runOneMigration]
  have col1 : tableHasColumn ((runOneMigration ((runOneMigration ((runOneMigration
      ((runOneMigration (createAllTables s) mig1).1) mig2).1) mig3).1) mig4).1)
      "shopping_items" "completed" = true := by
    apply tableHasColumn_runOneMigration_mono
    apply tableHasColumn_runOneMigration_mono
    apply tableHasColumn_runOneMigration_mono
    exact tableHasColumn_runOneMigration_self _ _ _ _ hS
  have col2 : tableHasColumn ((runOneMigration ((runOneMigration ((runOneMigration
      ((runOneMigration (createAllTables s) mig1).1) mig2).1) mig3).1) mig4).1)
      "shopping_items" "completed_by" = true := by
    apply tableHasColumn_runOneMigration_mono
    apply tableHasColumn_runOneMigration_mono
    apply tableHasColumn_runOneMigration_self
    rw [hasTable_runOneMigration]
    exact hS
  have col3 : tableHasColumn ((runOneMigration ((runOneMigration ((runOneMigration
      ((runOneMigration (createAllTables s) mig1).1) mig2).1) mig3).1) mig4).1)
      "shopping_items" "completed_at" = true := by
    apply tableHasColumn_runOneMigration_mono
    apply tableHasColumn_runOneMigration_self
    rw [hasTable_runOneMigration, hasTable_runOneMigration]
    exact hS
  have col4 : tableHasColumn ((runOneMigration ((runOneMigration ((runOneMigration
      ((runOneMigration (createAllTables s) mig1).1) mig2).1) mig3).1) mig4).1)
      "users" "supabase_id" = true := by
    apply tableHasColumn_runOneMigration_self
    rw [hasTable_runOneMigration, hasTable_runOneMigration, hasTable_runOneMigration]
    exact hU
  unfold fullyMigrated
  rw [e, hT, hT, hT, hT, hT, hT, hU, hS, hC, hE, hB, hSe, col1, col2, col3, col4]
  rfl

/-- A migration whose column already exists hits the "duplicate column
name" error, is classified as already applied, and leaves the schema
untouched with a debug log. -/
theorem runOneMigration_already (s : Schema) (tbl col d : String)
    (t : TableSchema)
    (hfind : s.find? (fun u => u.name == tbl) = some t)
    (hcon : t.columns.contains col = true)
    (hclass : (strIn "duplicate column name" (pyLower ("duplicate column name: " ++ col))
      || strIn "already exists" (pyLower ("duplicate column name: " ++ col))) = true) :
    runOneMigration s ((tbl, col), d) =
      (s, [.debug ("Migration already applied: " ++ d)]) := by
  have herr : alterTableAddColumn s tbl col =
      .error (.operationalError ("duplicate column name: " ++ col)) := by
    unfold alterTableAddColumn
    simp only [hfind]
    rw [if_pos hcon]
  unfold runOneMigration
  simp only [herr]
  rw [if_pos hclass]

/-- On a fully migrated schema, `init_db` changes nothing and logs only the
four "already applied" debug entries. -/
theorem init_db_already (s : Schema) (h : fullyMigrated s = true) :
    init_db s =
      (s, [LogEntry.debug "Migration already applied: shopping_items completed column",
           LogEntry.debug "Migration already applied: shopping_items completed_by column",
           LogEntry.debug "Migration already applied: shopping_items completed_at column",
           LogEntry.debug "Migration already applied: users supabase_id column"]) := by
  unfold fullyMigrated at h
  simp only [Bool.and_eq_true] at h
  obtain ⟨⟨⟨⟨⟨⟨⟨⟨⟨hU, hS⟩, hC⟩, hE⟩, hB⟩, hSe⟩, h1⟩, h2⟩, h3⟩, h4⟩ := h
  have hca : createAllTables s = s := by
    unfold createAllTables
    simp only [createTableIfNotExists, hU, hS, hC, hE, hB, hSe, if_true]
  obtain ⟨t1, hf1, hc1⟩ := (tableHasColumn_true_iff s "shopping_items" "completed").mp h1
  obtain ⟨t2, hf2, hc2⟩ := (tableHasColumn_true_iff s "shopping_items" "completed_by").mp h2
  obtain ⟨t3, hf3, hc3⟩ := (tableHasColumn_true_iff s "shopping_items" "completed_at").mp h3
  obtain ⟨t4, hf4, hc4⟩ := (tableHasColumn_true_iff s "users" "supabase_id").mp h4
  have r1 := runOneMigration_already s "shopping_items" "completed"
    "shopping_items completed column" t1 hf1 hc1 (by decide)
  have r2 := runOneMigration_already s "shopping_items" "completed_by"
    "shopping_items completed_by column" t2 hf2 hc2 (by decide)
  have r3 := runOneMigration_already s "shopping_items" "completed_at"
    "shopping_items completed_at column" t3 hf3 hc3 (by decide)
  have r4 := runOneMigration_already s "users" "supabase_id"
    "users supabase_id column" t4 hf4 hc4 (by decide)
  unfold init_db
  rw [hca]
  unfold run_migrations migrations
  simp only [List.foldl_cons, List.foldl_nil, r1, r2, r3, r4]
  rfl

set_option maxHeartbeats 1000000 in
/-- C5: running `init_db` a second time on the store the first run left
raises no error, leaves the schema identical, and classifies every
migration failure of the "duplicate column"/"already exists" class as
success — the second run logs no warning (and, being a total function, the
runner continues past every migration failure instead of crashing). -/
theorem init_db_twice_idempotent (s : Schema) :
    (init_db (init_db s).1).1 = (init_db s).1 ∧
    ∀ m, LogEntry.warning m ∉ (init_db (init_db s).1).2 := by
  have h2 := init_db_already _ (fullyMigrated_init_db s)
  constructor
  · rw [h2]
  · rw [h2]
    intro m
    simp
